import Mathlib

/-!
Verification of the `loggery` logging facade (src/lib.rs).

The embedding models the dynamic-dispatch build of the crate (the
`static` feature disabled), which is the mode all registry claims are
about; the level gate in `log` is textually identical in both modes.
Cargo feature flags become a `Config` record, the three process-wide
atomics (`LOGGER_FN`, `EXTENSION_FN`, `RUNTIME_MIN_LEVEL`) become a
`State` record with explicit state passing (the code is lock-free and
each operation is a single load/store/CAS, so the sequential semantics
is the per-operation semantics), and function pointers stored in the
slots become abstract identifiers: a distinguished value for the
built-in `stdout::logger_fn` plus arbitrary user functions.  `log`
returns the updated state together with the list of extension/sink
invocation events it performs, in order.  The `metadata` payload field
is carried opaquely by the code and touched by no claim, so `Payload`
keeps only the level and the formatted message.
-/

namespace Loggery

/-- Log levels in order of increasing severity (`Level`, lib.rs:199-213). -/
inductive Level : Type where
  | Trace : Level
  | Debug : Level
  | Info : Level
  | Warn : Level
  | Error : Level
deriving DecidableEq, Repr

/-- The `repr(u8)` discriminant of a level (`Level::X as u8`). -/
def Level.toU8 : Level → Nat
  | Level.Trace => 0
  | Level.Debug => 1
  | Level.Info => 2
  | Level.Warn => 3
  | Level.Error => 4

/-- Converts a u8 to a level, returning none if invalid (`Level::from_u8`, lib.rs:229-239). -/
def Level.from_u8 (value : Nat) : Option Level :=
  match value with
  | 0 => some Level.Trace
  | 1 => some Level.Debug
  | 2 => some Level.Info
  | 3 => some Level.Warn
  | 4 => some Level.Error
  | _ => none

/-- The cargo feature flags that shape the compiled crate (lib.rs feature table). -/
structure Config : Type where
  std : Bool
  extension : Bool
  runtime_level : Bool
  min_level_off : Bool
  min_level_error : Bool
  min_level_warn : Bool
  min_level_info : Bool
  min_level_debug : Bool
  min_level_trace : Bool
deriving DecidableEq, Repr

/-- Compile-time minimum log level selected by the `min_level_*` feature
flags (`COMPILE_TIME_MIN_LEVEL`, lib.rs:274-282), as the source's
`Option<u8>`, following the match-arm order of the source. -/
def COMPILE_TIME_MIN_LEVEL (cfg : Config) : Option Nat :=
  if cfg.min_level_off then none
  else if cfg.min_level_error then some Level.Error.toU8
  else if cfg.min_level_warn then some Level.Warn.toU8
  else if cfg.min_level_info then some Level.Info.toU8
  else if cfg.min_level_debug then some Level.Debug.toU8
  else if cfg.min_level_trace then some Level.Trace.toU8
  else some Level.Trace.toU8

/-- A value of the source's `LoggerFn` function-pointer type: either the
built-in `stdout::logger_fn` (lib.rs:868) or a user-supplied function,
identified abstractly. -/
inductive LoggerFn : Type where
  | stdoutLogger : LoggerFn
  | custom : Nat → LoggerFn
deriving DecidableEq, Repr

/-- A value of the source's `ExtensionFn` function-pointer type,
identified abstractly. -/
abbrev ExtensionFn := Nat

/-- The data passed to the logger and extensions (`Payload`, lib.rs:254-262);
`args` is the formatted message text. -/
structure Payload : Type where
  level : Level
  args : String
deriving DecidableEq, Repr

/-- One observable call performed by `log`: the extension invoked with a
reference to the payload, or the sink invoked consuming the payload. -/
inductive Event : Type where
  | ext : ExtensionFn → Payload → Event
  | sink : LoggerFn → Payload → Event
deriving DecidableEq, Repr

/-- The process-wide mutable state: the three static atomics of
lib.rs:327-338, with a null pointer modelled as `none`. -/
structure State : Type where
  LOGGER_FN : Option LoggerFn
  EXTENSION_FN : Option ExtensionFn
  RUNTIME_MIN_LEVEL : Nat
deriving DecidableEq, Repr

/-- The static initializers (lib.rs:327-338): both pointer slots null,
runtime level `Level::Trace as u8`. -/
def initState : State :=
  { LOGGER_FN := none, EXTENSION_FN := none, RUNTIME_MIN_LEVEL := Level.Trace.toU8 }

/-- Sets the global logger function (`set_logger`, lib.rs:376-380): a
single store to `LOGGER_FN`. -/
def set_logger (logger_fn : LoggerFn) (s : State) : State :=
  { s with LOGGER_FN := some logger_fn }

/-- Sets the global extension function (`set_extension`, lib.rs:421-428):
a single store to `EXTENSION_FN`. -/
def set_extension (extension_fn : ExtensionFn) (s : State) : State :=
  { s with EXTENSION_FN := some extension_fn }

/-- Sets the runtime minimum log level (`set_min_level`, lib.rs:451-455):
a single store of `level as u8` to `RUNTIME_MIN_LEVEL`. -/
def set_min_level (level : Level) (s : State) : State :=
  { s with RUNTIME_MIN_LEVEL := level.toU8 }

/-- Returns the effective minimum log level (`get_min_level`,
lib.rs:470-488): the stricter (max) of the compile-time and runtime
levels when `runtime_level` is compiled in, run back through
`Level::from_u8`. -/
def get_min_level (cfg : Config) (s : State) : Option Level :=
  match COMPILE_TIME_MIN_LEVEL cfg with
  | none => none
  | some compile_time =>
    let level :=
      if cfg.runtime_level then Nat.max compile_time s.RUNTIME_MIN_LEVEL
      else compile_time
    Level.from_u8 level

/-- Gets the logger, auto-initializing the default stdout logger if
needed under the `std` feature (`get_logger`, lib.rs:574-600).  With a
null slot and `std`, the compare-exchange from null to
`stdout::logger_fn` is performed (in the sequential semantics a CAS on a
null slot succeeds), the slot is re-loaded and the re-loaded value is
returned. -/
def get_logger (cfg : Config) (s : State) : Option LoggerFn × State :=
  match s.LOGGER_FN with
  | some ptr => (some ptr, s)
  | none =>
    if cfg.std then
      let s' : State := { s with LOGGER_FN := some LoggerFn.stdoutLogger }
      (s'.LOGGER_FN, s')
    else (none, s)

/-- Gets the extension function if one is set, otherwise returns none
(`get_extension`, lib.rs:603-613). -/
def get_extension (s : State) : Option ExtensionFn :=
  match s.EXTENSION_FN with
  | some ptr => some ptr
  | none => none

/-- The body of `log` past the level gate (lib.rs:513-535, the
non-`static` branches): invoke the extension if the `extension` feature
is on and one is set, then resolve the sink through `get_logger` and
invoke it if present. -/
def dispatch_body (cfg : Config) (p : Payload) (s : State) : State × List Event :=
  let ext_events : List Event :=
    if cfg.extension then
      match get_extension s with
      | some extension_fn => [Event.ext extension_fn p]
      | none => []
    else []
  let resolved := get_logger cfg s
  match resolved.1 with
  | some logger_fn => (resolved.2, ext_events ++ [Event.sink logger_fn p])
  | none => (resolved.2, ext_events)

/-- Core logging entry point (`log`, lib.rs:494-536, dynamic mode): the
compile-time gate, then the runtime gate when `runtime_level` is
compiled in, then the dispatch to extension and sink.  An early return
yields the unchanged state and no events. -/
def log (cfg : Config) (p : Payload) (s : State) : State × List Event :=
  let is_compile_time_enabled : Bool :=
    match COMPILE_TIME_MIN_LEVEL cfg with
    | some level => decide (p.level.toU8 ≥ level)
    | none => false
  if !is_compile_time_enabled then (s, [])
  else if cfg.runtime_level && decide (p.level.toU8 < s.RUNTIME_MIN_LEVEL) then (s, [])
  else dispatch_body cfg p s

/-- The level gate of `log` in one boolean (lib.rs:495-511): the record
passes iff the compile-time check passes and, when `runtime_level` is
compiled in, the runtime check passes. -/
def is_enabled (cfg : Config) (s : State) (level : Level) : Bool :=
  (match COMPILE_TIME_MIN_LEVEL cfg with
   | some l => decide (level.toU8 ≥ l)
   | none => false)
  && !(cfg.runtime_level && decide (level.toU8 < s.RUNTIME_MIN_LEVEL))

/-- The cargo default feature set (`std`, `runtime_level` on; no
`min_level_*` flag, so the compile floor defaults to Trace). -/
def defaultConfig : Config :=
  { std := true, extension := false, runtime_level := true,
    min_level_off := false, min_level_error := false, min_level_warn := false,
    min_level_info := false, min_level_debug := false, min_level_trace := false }

/-- The default feature set with `min_level_off` added: all logs disabled
at compile time. -/
def offConfig : Config :=
  { defaultConfig with min_level_off := true }

/-- The default feature set with `min_level_info` added: compile floor Info. -/
def infoConfig : Config :=
  { defaultConfig with min_level_info := true }

/-- The default feature set without `std`: no default sink compiled in. -/
def noStdConfig : Config :=
  { defaultConfig with std := false }

/-- The default feature set with the `extension` hook compiled in. -/
def extConfig : Config :=
  { defaultConfig with extension := true }

/-- A state with a user sink registered and nothing else touched. -/
def stateWithCustomLogger : State :=
  { initState with LOGGER_FN := some (LoggerFn.custom 1) }

/-- A state with both a user sink and a user extension registered. -/
def stateWithBoth : State :=
  { initState with LOGGER_FN := some (LoggerFn.custom 3), EXTENSION_FN := some 5 }

theorem log_eq_gate (cfg : Config) (p : Payload) (s : State) :
    log cfg p s = if is_enabled cfg s p.level then dispatch_body cfg p s else (s, []) := by
  unfold log is_enabled
  cases h : COMPILE_TIME_MIN_LEVEL cfg <;> simp [h]
  case some c =>
    by_cases hc : c ≤ p.level.toU8
    · have hc2 : ¬ p.level.toU8 < c := Nat.not_lt.mpr hc
      by_cases hlt : p.level.toU8 < s.RUNTIME_MIN_LEVEL
      · have hlt2 : ¬ s.RUNTIME_MIN_LEVEL ≤ p.level.toU8 := Nat.not_le.mpr hlt
        by_cases hrl : cfg.runtime_level = true <;> simp [hc, hc2, hlt, hlt2, hrl]
      · have hlt2 : s.RUNTIME_MIN_LEVEL ≤ p.level.toU8 := Nat.not_lt.mp hlt
        by_cases hrl : cfg.runtime_level = true <;> simp [hc, hc2, hlt, hlt2, hrl]
    · have hc2 : p.level.toU8 < c := Nat.not_le.mp hc
      simp [hc, hc2]

theorem toU8_le_four (l : Level) : l.toU8 ≤ 4 := by cases l <;> decide

theorem compile_level_le_four (cfg : Config) (c : Nat)
    (h : COMPILE_TIME_MIN_LEVEL cfg = some c) : c ≤ 4 := by
  unfold COMPILE_TIME_MIN_LEVEL at h
  split_ifs at h <;> simp_all [Level.toU8] <;> omega

theorem from_u8_of_le_four (v : Nat) (hv : v ≤ 4) :
    ∃ l : Level, Level.from_u8 v = some l ∧ l.toU8 = v := by
  interval_cases v <;> exact ⟨_, rfl, rfl⟩

theorem get_logger_of_some (cfg : Config) (s : State) (f : LoggerFn)
    (hf : s.LOGGER_FN = some f) : get_logger cfg s = (some f, s) := by
  unfold get_logger; rw [hf]

theorem get_logger_runtime_unchanged (cfg : Config) (s : State) :
    (get_logger cfg s).2.RUNTIME_MIN_LEVEL = s.RUNTIME_MIN_LEVEL := by
  unfold get_logger
  cases h : s.LOGGER_FN <;> simp
  by_cases hs : cfg.std <;> simp [hs]

theorem dispatch_body_fst (cfg : Config) (p : Payload) (s : State) :
    (dispatch_body cfg p s).1 = (get_logger cfg s).2 := by
  unfold dispatch_body
  cases h : (get_logger cfg s).1 <;> simp [h]

theorem dispatch_body_sinks (cfg : Config) (p : Payload) (s : State) (f : LoggerFn)
    (hf : s.LOGGER_FN = some f) :
    (dispatch_body cfg p s).1 = s
    ∧ ∀ g q, Event.sink g q ∈ (dispatch_body cfg p s).2 → g = f ∧ q = p := by
  unfold dispatch_body
  rw [get_logger_of_some cfg s f hf]
  refine ⟨rfl, ?_⟩
  intro g q hm
  by_cases hx : cfg.extension <;> simp [hx] at hm
  · cases he : get_extension s <;> simp [he] at hm <;> simp_all
  · simp_all

/-- Claim C1: a log record is enabled — `log` proceeds past the gate to
the extension/sink dispatch — iff the compile floor is not Off, the
record's level is at least the compile floor, and the record's level is
at least the runtime floor. -/
theorem log_gate_characterization (cfg : Config) (s : State) (p : Payload)
    (hrt : cfg.runtime_level = true) :
    (log cfg p s = if is_enabled cfg s p.level then dispatch_body cfg p s else (s, []))
    ∧ (is_enabled cfg s p.level = true ↔
        ∃ c, COMPILE_TIME_MIN_LEVEL cfg = some c ∧ c ≤ p.level.toU8
          ∧ s.RUNTIME_MIN_LEVEL ≤ p.level.toU8) := by
  refine ⟨log_eq_gate cfg p s, ?_⟩
  unfold is_enabled
  cases h : COMPILE_TIME_MIN_LEVEL cfg <;> simp [h, hrt, Nat.not_lt]

theorem log_gate_characterization_witness :
    defaultConfig.runtime_level = true
    ∧ ((log defaultConfig (Payload.mk Level.Info "m") initState =
          if is_enabled defaultConfig initState (Payload.mk Level.Info "m").level then
            dispatch_body defaultConfig (Payload.mk Level.Info "m") initState
          else (initState, []))
        ∧ (is_enabled defaultConfig initState (Payload.mk Level.Info "m").level = true ↔
            ∃ c, COMPILE_TIME_MIN_LEVEL defaultConfig = some c
              ∧ c ≤ (Payload.mk Level.Info "m").level.toU8
              ∧ initState.RUNTIME_MIN_LEVEL ≤ (Payload.mk Level.Info "m").level.toU8)) :=
  ⟨rfl, log_gate_characterization defaultConfig initState (Payload.mk Level.Info "m") rfl⟩

/-- Claim C8: for every record whose level fails the gate, `log` returns
the state unchanged and performs no extension or sink invocation. -/
theorem log_disabled_frame (cfg : Config) (s : State) (p : Payload)
    (h : is_enabled cfg s p.level = false) :
    log cfg p s = (s, []) := by
  rw [log_eq_gate, h]
  simp

theorem log_disabled_frame_witness :
    is_enabled offConfig initState (Payload.mk Level.Error "m").level = false
    ∧ log offConfig (Payload.mk Level.Error "m") initState = (initState, []) :=
  ⟨rfl, log_disabled_frame offConfig initState (Payload.mk Level.Error "m") rfl⟩

/-- Claim C9: for every level, `from_u8` inverts `as u8`; and every u8
value greater than 4 maps to none. -/
theorem from_u8_round_trip :
    (∀ l : Level, Level.from_u8 l.toU8 = some l)
    ∧ (∀ v : Nat, v < 256 → 4 < v → Level.from_u8 v = none) := by
  constructor
  · intro l; cases l <;> rfl
  · intro v _ hgt
    obtain ⟨n, rfl⟩ : ∃ n, v = n + 5 := ⟨v - 5, by omega⟩
    rfl

theorem from_u8_round_trip_witness :
    Level.from_u8 Level.Warn.toU8 = some Level.Warn
    ∧ ((7 : Nat) < 256 ∧ (4 : Nat) < 7 ∧ Level.from_u8 7 = none) :=
  ⟨from_u8_round_trip.1 Level.Warn, by decide, by decide,
    from_u8_round_trip.2 7 (by decide) (by decide)⟩

/-- Claim C2: `set_min_level L` followed by `get_min_level` yields the
level whose code is `max(compileFloor, L)` when the compile floor is not
Off, and yields none regardless of `L` when the compile floor is Off. -/
theorem set_then_get_min_level (cfg : Config) (L : Level) (s : State)
    (hrt : cfg.runtime_level = true) :
    (COMPILE_TIME_MIN_LEVEL cfg = none →
      get_min_level cfg (set_min_level L s) = none)
    ∧ (∀ c, COMPILE_TIME_MIN_LEVEL cfg = some c →
        ∃ m : Level, get_min_level cfg (set_min_level L s) = some m
          ∧ m.toU8 = Nat.max c L.toU8) := by
  constructor
  · intro h
    simp [get_min_level, h]
  · intro c h
    have hc4 : c ≤ 4 := compile_level_le_four cfg c h
    have hL4 : L.toU8 ≤ 4 := toU8_le_four L
    have hmax : Nat.max c L.toU8 ≤ 4 := Nat.max_le.mpr ⟨hc4, hL4⟩
    obtain ⟨m, hm, hmt⟩ := from_u8_of_le_four _ hmax
    refine ⟨m, ?_, hmt⟩
    simp [get_min_level, h, hrt, set_min_level, hm]

theorem set_then_get_min_level_witness :
    defaultConfig.runtime_level = true
    ∧ ((COMPILE_TIME_MIN_LEVEL defaultConfig = none →
          get_min_level defaultConfig (set_min_level Level.Warn initState) = none)
       ∧ (∀ c, COMPILE_TIME_MIN_LEVEL defaultConfig = some c →
           ∃ m : Level, get_min_level defaultConfig (set_min_level Level.Warn initState) = some m
             ∧ m.toU8 = Nat.max c Level.Warn.toU8)) :=
  ⟨rfl, set_then_get_min_level defaultConfig Level.Warn initState rfl⟩

/-- Claim C3: with compile floor Info, the runtime floor at its Trace
default, a sink registered and no extension set, dispatching a Debug
record is a no-op while dispatching a Warn record reaches the sink with
level Warn and exactly the supplied message. -/
theorem info_floor_end_to_end (cfg : Config) (s : State) (f : LoggerFn) (msg : String)
    (hc : COMPILE_TIME_MIN_LEVEL cfg = some Level.Info.toU8)
    (hrun : s.RUNTIME_MIN_LEVEL = Level.Trace.toU8)
    (hf : s.LOGGER_FN = some f)
    (he : s.EXTENSION_FN = none) :
    log cfg (Payload.mk Level.Debug msg) s = (s, [])
    ∧ log cfg (Payload.mk Level.Warn msg) s
        = (s, [Event.sink f (Payload.mk Level.Warn msg)]) := by
  constructor
  · simp [log, hc, Level.toU8]
  · simp [log, hc, hrun, Level.toU8, dispatch_body, get_extension, get_logger, he, hf]

theorem info_floor_end_to_end_witness :
    COMPILE_TIME_MIN_LEVEL infoConfig = some Level.Info.toU8
    ∧ stateWithCustomLogger.RUNTIME_MIN_LEVEL = Level.Trace.toU8
    ∧ stateWithCustomLogger.LOGGER_FN = some (LoggerFn.custom 1)
    ∧ stateWithCustomLogger.EXTENSION_FN = none
    ∧ (log infoConfig (Payload.mk Level.Debug "hello") stateWithCustomLogger
        = (stateWithCustomLogger, [])
       ∧ log infoConfig (Payload.mk Level.Warn "hello") stateWithCustomLogger
        = (stateWithCustomLogger,
            [Event.sink (LoggerFn.custom 1) (Payload.mk Level.Warn "hello")])) :=
  ⟨rfl, rfl, rfl, rfl,
    info_floor_end_to_end infoConfig stateWithCustomLogger (LoggerFn.custom 1) "hello"
      rfl rfl rfl rfl⟩

/-- Claim C6: in dynamic mode with no default sink compiled in (`std`
off) and both slots never set, dispatching any record returns the state
unchanged and invokes nothing. -/
theorem no_sink_silence (cfg : Config) (s : State) (p : Payload)
    (hstd : cfg.std = false) (hf : s.LOGGER_FN = none) (he : s.EXTENSION_FN = none) :
    log cfg p s = (s, []) := by
  rw [log_eq_gate]
  by_cases hen : is_enabled cfg s p.level <;> simp [hen]
  simp [dispatch_body, get_logger, get_extension, hstd, hf, he]

theorem no_sink_silence_witness :
    noStdConfig.std = false
    ∧ initState.LOGGER_FN = none
    ∧ initState.EXTENSION_FN = none
    ∧ log noStdConfig (Payload.mk Level.Error "x") initState = (initState, []) :=
  ⟨rfl, rfl, rfl, no_sink_silence noStdConfig initState (Payload.mk Level.Error "x") rfl rfl rfl⟩

/-- Claim C4: with the default sink compiled in (`std`), `get_logger` on
an empty slot installs the built-in default via the compare-and-swap,
re-loads the slot, and returns exactly what is now stored; a repeated
call returns the same reference without further change, and once the
slot is non-empty `get_logger` never returns none. -/
theorem get_logger_lazy_default (cfg : Config) (s : State)
    (hstd : cfg.std = true) (h : s.LOGGER_FN = none) :
    (get_logger cfg s).1 = some LoggerFn.stdoutLogger
    ∧ (get_logger cfg s).2.LOGGER_FN = some LoggerFn.stdoutLogger
    ∧ (get_logger cfg s).1 = (get_logger cfg s).2.LOGGER_FN
    ∧ get_logger cfg (get_logger cfg s).2 = ((get_logger cfg s).1, (get_logger cfg s).2)
    ∧ (∀ t : State, t.LOGGER_FN.isSome = true → ((get_logger cfg t).1).isSome = true) := by
  refine ⟨?_, ?_, ?_, ?_, ?_⟩
  · simp [get_logger, h, hstd]
  · simp [get_logger, h, hstd]
  · simp [get_logger, h, hstd]
  · simp [get_logger, h, hstd]
  · intro t ht
    cases hx : t.LOGGER_FN with
    | none => rw [hx] at ht; simp at ht
    | some v => simp [get_logger, hx]

theorem get_logger_lazy_default_witness :
    defaultConfig.std = true
    ∧ initState.LOGGER_FN = none
    ∧ ((get_logger defaultConfig initState).1 = some LoggerFn.stdoutLogger
       ∧ (get_logger defaultConfig initState).2.LOGGER_FN = some LoggerFn.stdoutLogger
       ∧ (get_logger defaultConfig initState).1
           = (get_logger defaultConfig initState).2.LOGGER_FN
       ∧ get_logger defaultConfig (get_logger defaultConfig initState).2
           = ((get_logger defaultConfig initState).1, (get_logger defaultConfig initState).2)
       ∧ (∀ t : State, t.LOGGER_FN.isSome = true
           → ((get_logger defaultConfig t).1).isSome = true)) :=
  ⟨rfl, rfl, get_logger_lazy_default defaultConfig initState rfl rfl⟩

/-- Claim C5: after `set_logger A` then `set_logger B`, every subsequent
dispatch of an enabled record invokes B — its sink invocation of B is
actually performed — and every sink invocation of a subsequent `log`
uses B, never A unless A is B; `log` leaves the state unchanged, so the
same holds for every later dispatch; A is arbitrary, covering the
lazily-installed default. -/
theorem set_logger_last_write_wins (cfg : Config) (s : State) (A B : LoggerFn) (p : Payload) :
    (is_enabled cfg (set_logger B (set_logger A s)) p.level = true →
      Event.sink B p ∈ (log cfg p (set_logger B (set_logger A s))).2)
    ∧ (∀ f q, Event.sink f q ∈ (log cfg p (set_logger B (set_logger A s))).2 → f = B)
    ∧ (log cfg p (set_logger B (set_logger A s))).1 = set_logger B (set_logger A s) := by
  have hslot : (set_logger B (set_logger A s)).LOGGER_FN = some B := rfl
  rw [log_eq_gate]
  by_cases hen : is_enabled cfg (set_logger B (set_logger A s)) p.level <;> simp [hen]
  obtain ⟨h1, h2⟩ := dispatch_body_sinks cfg p (set_logger B (set_logger A s)) B hslot
  refine ⟨?_, fun f q hm => (h2 f q hm).1, h1⟩
  unfold dispatch_body
  rw [get_logger_of_some cfg (set_logger B (set_logger A s)) B hslot]
  simp

theorem set_logger_last_write_wins_witness :
    (is_enabled defaultConfig
        (set_logger (LoggerFn.custom 2) (set_logger (LoggerFn.custom 1) initState))
        (Payload.mk Level.Error "w").level = true →
      Event.sink (LoggerFn.custom 2) (Payload.mk Level.Error "w") ∈
        (log defaultConfig (Payload.mk Level.Error "w")
          (set_logger (LoggerFn.custom 2) (set_logger (LoggerFn.custom 1) initState))).2)
    ∧ (∀ f q, Event.sink f q ∈
        (log defaultConfig (Payload.mk Level.Error "w")
          (set_logger (LoggerFn.custom 2) (set_logger (LoggerFn.custom 1) initState))).2
      → f = LoggerFn.custom 2)
    ∧ (log defaultConfig (Payload.mk Level.Error "w")
        (set_logger (LoggerFn.custom 2) (set_logger (LoggerFn.custom 1) initState))).1
      = set_logger (LoggerFn.custom 2) (set_logger (LoggerFn.custom 1) initState) :=
  set_logger_last_write_wins defaultConfig initState (LoggerFn.custom 1) (LoggerFn.custom 2)
    (Payload.mk Level.Error "w")

/-- Claim C7: with the extension feature on, an extension and a sink
both set, and the record enabled, `log` invokes the extension exactly
once, before the sink, both receiving the same level and message; with
no extension set, no extension invocation ever happens. -/
theorem extension_before_sink (cfg : Config) (s : State) (p : Payload)
    (e : ExtensionFn) (f : LoggerFn)
    (hext : cfg.extension = true) (he : s.EXTENSION_FN = some e)
    (hf : s.LOGGER_FN = some f) (hen : is_enabled cfg s p.level = true) :
    log cfg p s = (s, [Event.ext e p, Event.sink f p])
    ∧ (∀ (t : State) (q : Payload), t.EXTENSION_FN = none →
        ∀ (g : ExtensionFn) (r : Payload), Event.ext g r ∉ (log cfg q t).2) := by
  constructor
  · rw [log_eq_gate, hen]
    simp [dispatch_body, get_extension, he, hf, hext, get_logger_of_some cfg s f hf]
  · intro t q ht g r
    rw [log_eq_gate]
    by_cases hq : is_enabled cfg t q.level <;> simp [hq]
    unfold dispatch_body
    simp [get_extension, ht]
    cases hl : (get_logger cfg t).1 <;> simp [hl]

theorem extension_before_sink_witness :
    extConfig.extension = true
    ∧ stateWithBoth.EXTENSION_FN = some 5
    ∧ stateWithBoth.LOGGER_FN = some (LoggerFn.custom 3)
    ∧ is_enabled extConfig stateWithBoth (Payload.mk Level.Info "w").level = true
    ∧ (log extConfig (Payload.mk Level.Info "w") stateWithBoth
        = (stateWithBoth,
            [Event.ext 5 (Payload.mk Level.Info "w"),
             Event.sink (LoggerFn.custom 3) (Payload.mk Level.Info "w")])
       ∧ (∀ (t : State) (q : Payload), t.EXTENSION_FN = none →
           ∀ (g : ExtensionFn) (r : Payload), Event.ext g r ∉ (log extConfig q t).2)) :=
  ⟨rfl, rfl, rfl, rfl,
    extension_before_sink extConfig stateWithBoth (Payload.mk Level.Info "w") 5
      (LoggerFn.custom 3) rfl rfl rfl rfl⟩

/-- Claim C10: the runtime floor starts as a valid level code, every
`set_min_level` writes a valid level code, `log` never changes it, and
whenever the compile floor is not Off and the runtime floor holds a
valid code, `get_min_level` returns some valid level — the `from_u8`
inside it never fails. -/
theorem get_min_level_never_fails :
    initState.RUNTIME_MIN_LEVEL ≤ 4
    ∧ (∀ (L : Level) (s : State), (set_min_level L s).RUNTIME_MIN_LEVEL ≤ 4)
    ∧ (∀ (cfg : Config) (p : Payload) (s : State),
        ((log cfg p s).1).RUNTIME_MIN_LEVEL = s.RUNTIME_MIN_LEVEL)
    ∧ (∀ (cfg : Config) (s : State) (c : Nat), s.RUNTIME_MIN_LEVEL ≤ 4 →
        COMPILE_TIME_MIN_LEVEL cfg = some c →
        (get_min_level cfg s).isSome = true) := by
  refine ⟨by decide, fun L s => toU8_le_four L, ?_, ?_⟩
  · intro cfg p s
    rw [log_eq_gate]
    by_cases hen : is_enabled cfg s p.level <;> simp [hen]
    rw [dispatch_body_fst]
    exact get_logger_runtime_unchanged cfg s
  · intro cfg s c hs h
    have hc4 : c ≤ 4 := compile_level_le_four cfg c h
    have hmax : Nat.max c s.RUNTIME_MIN_LEVEL ≤ 4 := Nat.max_le.mpr ⟨hc4, hs⟩
    by_cases hrt : cfg.runtime_level
    · obtain ⟨m, hm, _⟩ := from_u8_of_le_four _ hmax
      simp [get_min_level, h, hrt, hm]
    · obtain ⟨m, hm, _⟩ := from_u8_of_le_four _ hc4
      simp [get_min_level, h, hrt, hm]

theorem get_min_level_never_fails_witness :
    initState.RUNTIME_MIN_LEVEL ≤ 4
    ∧ (set_min_level Level.Error initState).RUNTIME_MIN_LEVEL ≤ 4
    ∧ ((log defaultConfig (Payload.mk Level.Info "n") initState).1).RUNTIME_MIN_LEVEL
        = initState.RUNTIME_MIN_LEVEL
    ∧ (initState.RUNTIME_MIN_LEVEL ≤ 4
       ∧ COMPILE_TIME_MIN_LEVEL defaultConfig = some 0
       ∧ (get_min_level defaultConfig initState).isSome = true) :=
  ⟨get_min_level_never_fails.1,
   get_min_level_never_fails.2.1 Level.Error initState,
   get_min_level_never_fails.2.2.1 defaultConfig (Payload.mk Level.Info "n") initState,
   by decide, rfl,
   get_min_level_never_fails.2.2.2 defaultConfig initState 0 (by decide) rfl⟩

end Loggery
